import Mathlib

/-!
Verification of `src/listeners/events/app_home_opened.py`
(`app_home_opened_callback`), a Slack `app_home_opened` event handler.

The handler is shallowly embedded as a pure total function.  External
collaborators are modelled as inputs:
* the provider registry (`get_available_providers().items()`) is a list of
  `(model_name, model_info)` pairs, in dict iteration order;
* the environment variables `REDIS_URL` / `GENAI_API_URL` are
  `Option String` (`none` = unset), with Python string truthiness
  (`none` and `some ""` are falsy);
* the outcomes of the three fallible external calls
  (`get_redis_user_state`, `set_redis_user_state`, `client.views_publish`)
  are injected as `Except Unit _` values; a `try/except` in the source
  becomes a `match` on the injected outcome whose `.error` arm is the
  translation of the `except` body.

The result records which external calls were made, the published view
payload (if the publish call was reached), and the log of `print` /
`logger` messages, so that frame and error-handling claims are statable.
Each straight-line block of the handler is a named stage function taking
exactly the data that block reads; `app_home_opened_callback` composes
the stages in source order.
-/

namespace AppHome

/-- A `model_info` dict entry of the provider registry
(`get_available_providers()`): only the `name` and `provider` keys are
read by the handler. -/
structure ModelInfo where
  name : String
  provider : String
deriving DecidableEq, Repr

/-- The `text` object of a Slack select option
(`{"type": "plain_text", "text": ..., "emoji": True}`). -/
structure OptText where
  type : String
  text : String
  emoji : Bool
deriving DecidableEq, Repr

/-- One dropdown option record (`{"text": ..., "value": ...}`). -/
structure SelectOption where
  text : OptText
  value : String
deriving DecidableEq, Repr

/-- Python truthiness of an optional string: `None` and `""` are falsy. -/
def pyStrTruthy : Option String → Bool
  | none => false
  | some s => !(s == "")

/-- Python `s.startswith(pre)`: `pre` is a prefix of `s`.  Defined over the
character list so that concrete instances evaluate in the kernel. -/
def pyStartsWith (s pre : String) : Bool := pre.data.isPrefixOf s.data

/-- Python `s.lower()` (ASCII case folding, as used on provider names). -/
def pyLower (s : String) : String := ⟨s.data.map Char.toLower⟩

/-- Lines 24-30: the options list comprehension.  For each
`(model_name, model_info)` registry entry one option with label
`f"{model_info['name']} ({model_info['provider']})"` and value
`f"{model_name} {model_info['provider'].lower()}"`. -/
def buildOptions (registry : List (String × ModelInfo)) : List SelectOption :=
  registry.map fun e =>
    { text := { type := "plain_text",
                text := e.2.name ++ " (" ++ e.2.provider ++ ")",
                emoji := true },
      value := e.1 ++ " " ++ pyLower e.2.provider }

/-- Line 56 / 72: `any(opt["value"].startswith("genai-agent") for opt in options)`. -/
def hasGenaiOption (options : List SelectOption) : Bool :=
  options.any fun o => pyStartsWith o.value "genai-agent"

/-- Lines 73-78: the placeholder appended when no initial option was chosen
and the genai fallback is available. -/
def genaiFallbackOption : SelectOption :=
  { text := { type := "plain_text",
              text := "Select a provider (GenAI used as fallback)",
              emoji := true },
    value := "null" }

/-- Lines 80-85: the placeholder appended when no initial option was chosen
and the genai fallback is not available. -/
def plainFallbackOption : SelectOption :=
  { text := { type := "plain_text", text := "Select a provider", emoji := true },
    value := "null" }

/-- The inputs of one invocation of `app_home_opened_callback`: the event
fields read, the environment, the registry contents, and the injected
outcomes of the three fallible external calls. -/
structure HandlerInput where
  tab : String
  user_id : String
  registry : List (String × ModelInfo)
  redis_url : Option String
  genai_api_url : Option String
  get_state : Except Unit (Option String × Option String)
  set_state : Except Unit Unit
  publish : Except Unit Unit

/-- The `static_select` payload of the published view: its
`initial_option` (line 112; `none` would mean an `IndexError` on
`options[-1]`) and its `options` list (line 113). -/
structure PublishedView where
  initial_option : Option SelectOption
  options : List SelectOption
deriving DecidableEq, Repr

/-- Observable outcome of one invocation: which external calls were made,
whether they succeeded, the view payload handed to `views_publish` (if
that call was reached), and the log. -/
structure HandlerResult where
  registryRead : Bool
  getStateCalled : Bool
  setStateCalled : Bool
  setStateOk : Bool
  publishCalled : Option PublishedView
  publishOk : Bool
  log : List String
deriving DecidableEq

/-- Lines 37-44: when `REDIS_URL` is truthy, call `get_redis_user_state`
inside `try/except` (on failure log and leave `provider`/`model` as
`None`).  Returns `((provider, model), getStateCalled, log entries)`. -/
def readState (redis_url : Option String)
    (get_state : Except Unit (Option String × Option String)) :
    (Option String × Option String) × Bool × List String :=
  if pyStrTruthy redis_url then
    match get_state with
    | .ok pm => (pm, true, [])
    | .error _ => ((none, none), true, ["⚠️ Failed to get user state from Redis"])
  else ((none, none), false, [])

/-- Outcome of the selection block (lines 46-66): the `initial_option`
list (Python `None` and `[]` are merged, since every use of
`initial_option` treats them identically), whether
`set_redis_user_state` was called and succeeded, and log entries. -/
structure SelectOutcome where
  initial_option : List SelectOption
  setStateCalled : Bool
  setStateOk : Bool
  log : List String
deriving DecidableEq

/-- Lines 46-66: if a truthy saved `(provider, model)` pair exists, filter
the options by `value.startswith(model)`; otherwise, when `GENAI_API_URL`
is truthy and a genai-agent option exists, select the genai-agent options
and best-effort save the default selection to Redis (lines 59-66,
`try/except` around `set_redis_user_state`). -/
def selectInitial (user_id : String) (genai_api_url redis_url : Option String)
    (set_state : Except Unit Unit) (options : List SelectOption)
    (provider model : Option String) : SelectOutcome :=
  if pyStrTruthy provider && pyStrTruthy model then
    let m := model.getD ""
    let p := provider.getD ""
    let initial_option := options.filter fun x => pyStartsWith x.value m
    { initial_option := initial_option
      setStateCalled := false
      setStateOk := true
      log := ["📋 Retrieved user state from Redis - User: " ++ user_id ++
                ", Provider: " ++ p ++ ", Model: " ++ m] ++
        (if initial_option.isEmpty then
          ["⚠️ No matching option found for model " ++ m ++ ", using default"]
        else []) }
  else
    let log0 := ["ℹ️ No provider selection found for user: " ++ user_id]
    if pyStrTruthy genai_api_url && hasGenaiOption options then
      let initial_option := options.filter fun x => pyStartsWith x.value "genai-agent"
      let log1 := log0 ++ ["🔄 Using genai-agent as default model for user: " ++ user_id]
      if !initial_option.isEmpty && pyStrTruthy redis_url then
        match set_state with
        | .ok _ =>
          { initial_option := initial_option, setStateCalled := true, setStateOk := true,
            log := log1 ++ ["✅ Saved default GenAI selection to Redis for user: " ++ user_id] }
        | .error _ =>
          { initial_option := initial_option, setStateCalled := true, setStateOk := false,
            log := log1 ++ ["❌ Error saving default GenAI selection"] }
      else
        { initial_option := initial_option, setStateCalled := false, setStateOk := true, log := log1 }
    else
      { initial_option := [], setStateCalled := false, setStateOk := true, log := log0 }

/-- Lines 69-85: when `initial_option` is falsy, append the placeholder
option (genai-fallback label when `GENAI_API_URL` is truthy and a
genai-agent option exists, plain label otherwise). -/
def finalOptions (genai_api_url : Option String)
    (options initial_option : List SelectOption) : List SelectOption :=
  if initial_option.isEmpty then
    if pyStrTruthy genai_api_url && hasGenaiOption options then
      options ++ [genaiFallbackOption]
    else
      options ++ [plainFallbackOption]
  else options

/-- Line 112: `initial_option[0] if initial_option else options[-1]`
(`none` models the `IndexError` that `options[-1]` would raise on an
empty list). -/
def viewInitial (initial_option options : List SelectOption) : Option SelectOption :=
  match initial_option with
  | x :: _ => some x
  | [] => options.getLast?

/-- The outcome of the selection block on a `home`-tab invocation, fed
from `readState`'s `(provider, model)` result. -/
def homeSel (inp : HandlerInput) : SelectOutcome :=
  selectInitial inp.user_id inp.genai_api_url inp.redis_url inp.set_state
    (buildOptions inp.registry)
    (readState inp.redis_url inp.get_state).1.1
    (readState inp.redis_url inp.get_state).1.2

/-- The view payload handed to `client.views_publish` on a `home`-tab
invocation (lines 87-120): the dropdown after the placeholder step, with
`initial_option[0] if initial_option else options[-1]`. -/
def homeView (inp : HandlerInput) : PublishedView :=
  let options2 := finalOptions inp.genai_api_url (buildOptions inp.registry)
    (homeSel inp).initial_option
  { initial_option := viewInitial (homeSel inp).initial_option options2,
    options := options2 }

/-- The whole of `app_home_opened_callback` (lines 16-124). -/
def app_home_opened_callback (inp : HandlerInput) : HandlerResult :=
  if inp.tab ≠ "home" then
    { registryRead := false, getStateCalled := false, setStateCalled := false,
      setStateOk := true, publishCalled := none, publishOk := false, log := [] }
  else
    let rs := readState inp.redis_url inp.get_state
    let sel := homeSel inp
    let view := homeView inp
    let baseLog := ["🏠 App Home opened by user: " ++ inp.user_id] ++ rs.2.2 ++ sel.log
    match inp.publish with
    | .ok _ =>
      { registryRead := true, getStateCalled := rs.2.1, setStateCalled := sel.setStateCalled,
        setStateOk := sel.setStateOk, publishCalled := some view, publishOk := true,
        log := baseLog ++ ["✅ Successfully published home view for user: " ++ inp.user_id] }
    | .error _ =>
      { registryRead := true, getStateCalled := rs.2.1, setStateCalled := sel.setStateCalled,
        setStateOk := sel.setStateOk, publishCalled := some view, publishOk := false,
        log := baseLog ++ ["❌ Error publishing home view"] }

/-! ### Basic helper lemmas -/

lemma pyStrTruthy_some_of_ne (s : String) (h : s ≠ "") : pyStrTruthy (some s) = true := by
  simp [pyStrTruthy, h]

lemma filter_genai_ne_nil (opts : List SelectOption) (h : hasGenaiOption opts = true) :
    opts.filter (fun x => pyStartsWith x.value "genai-agent") ≠ [] := by
  rw [hasGenaiOption, List.any_eq_true] at h
  obtain ⟨a, ha, hpa⟩ := h
  intro hc
  exact (List.filter_eq_nil_iff.mp hc a ha) hpa

lemma filter_genai_isEmpty_false (opts : List SelectOption) (h : hasGenaiOption opts = true) :
    (opts.filter (fun x => pyStartsWith x.value "genai-agent")).isEmpty = false := by
  cases hfe : (opts.filter (fun x => pyStartsWith x.value "genai-agent")).isEmpty
  · rfl
  · exact absurd (List.isEmpty_iff.mp hfe) (filter_genai_ne_nil opts h)

/-! ### Unfolding lemmas for the callback's branches -/

lemma callback_not_home (inp : HandlerInput) (h : inp.tab ≠ "home") :
    app_home_opened_callback inp =
      { registryRead := false, getStateCalled := false, setStateCalled := false,
        setStateOk := true, publishCalled := none, publishOk := false, log := [] } := by
  unfold app_home_opened_callback
  rw [if_pos h]

lemma callback_home_publishCalled (inp : HandlerInput) (h : inp.tab = "home") :
    (app_home_opened_callback inp).publishCalled = some (homeView inp) := by
  unfold app_home_opened_callback
  rw [if_neg (fun hn => hn h)]
  cases inp.publish <;> rfl

lemma callback_home_getStateCalled (inp : HandlerInput) (h : inp.tab = "home") :
    (app_home_opened_callback inp).getStateCalled =
      (readState inp.redis_url inp.get_state).2.1 := by
  unfold app_home_opened_callback
  rw [if_neg (fun hn => hn h)]
  cases inp.publish <;> rfl

lemma callback_home_setStateCalled (inp : HandlerInput) (h : inp.tab = "home") :
    (app_home_opened_callback inp).setStateCalled = (homeSel inp).setStateCalled := by
  unfold app_home_opened_callback
  rw [if_neg (fun hn => hn h)]
  cases inp.publish <;> rfl

lemma callback_home_setStateOk (inp : HandlerInput) (h : inp.tab = "home") :
    (app_home_opened_callback inp).setStateOk = (homeSel inp).setStateOk := by
  unfold app_home_opened_callback
  rw [if_neg (fun hn => hn h)]
  cases inp.publish <;> rfl

lemma callback_home_publishOk (inp : HandlerInput) (h : inp.tab = "home") :
    (app_home_opened_callback inp).publishOk = inp.publish.isOk := by
  unfold app_home_opened_callback
  rw [if_neg (fun hn => hn h)]
  cases inp.publish <;> rfl

lemma callback_home_log (inp : HandlerInput) (h : inp.tab = "home") :
    (app_home_opened_callback inp).log =
      ["🏠 App Home opened by user: " ++ inp.user_id] ++
        (readState inp.redis_url inp.get_state).2.2 ++ (homeSel inp).log ++
        [match inp.publish with
         | .ok _ => "✅ Successfully published home view for user: " ++ inp.user_id
         | .error _ => "❌ Error publishing home view"] := by
  unfold app_home_opened_callback
  rw [if_neg (fun hn => hn h)]
  cases inp.publish <;> rfl

/-! ### Characterisations of the stage functions -/

lemma readState_ok (r : Option String) (pm : Option String × Option String)
    (hr : pyStrTruthy r = true) :
    readState r (Except.ok pm) = (pm, true, []) := by
  unfold readState
  simp [hr]

lemma readState_err (r : Option String) (hr : pyStrTruthy r = true) :
    readState r (Except.error ()) =
      ((none, none), true, ["⚠️ Failed to get user state from Redis"]) := by
  unfold readState
  simp [hr]

lemma readState_no_redis (r : Option String) (g : Except Unit (Option String × Option String))
    (hr : pyStrTruthy r = false) :
    readState r g = ((none, none), false, []) := by
  unfold readState
  simp [hr]

lemma homeSel_saved (inp : HandlerInput) (p m : String)
    (hr : pyStrTruthy inp.redis_url = true)
    (hget : inp.get_state = Except.ok (some p, some m))
    (hp : p ≠ "") (hm : m ≠ "") :
    homeSel inp =
      { initial_option := (buildOptions inp.registry).filter fun x => pyStartsWith x.value m,
        setStateCalled := false, setStateOk := true,
        log := ["📋 Retrieved user state from Redis - User: " ++ inp.user_id ++
                  ", Provider: " ++ p ++ ", Model: " ++ m] ++
          (if ((buildOptions inp.registry).filter fun x => pyStartsWith x.value m).isEmpty then
            ["⚠️ No matching option found for model " ++ m ++ ", using default"]
          else []) } := by
  unfold homeSel
  rw [hget, readState_ok _ _ hr]
  unfold selectInitial
  rw [if_pos (by simp [pyStrTruthy_some_of_ne p hp, pyStrTruthy_some_of_ne m hm])]
  rfl

lemma homeSel_nosaved_genai (inp : HandlerInput)
    (hns : (pyStrTruthy (readState inp.redis_url inp.get_state).1.1 &&
      pyStrTruthy (readState inp.redis_url inp.get_state).1.2) = false)
    (hg : pyStrTruthy inp.genai_api_url = true)
    (hgo : hasGenaiOption (buildOptions inp.registry) = true) :
    (homeSel inp).initial_option =
      (buildOptions inp.registry).filter fun x => pyStartsWith x.value "genai-agent" := by
  unfold homeSel selectInitial
  rw [if_neg (by simp [hns]), if_pos (by simp [hg, hgo])]
  dsimp only
  split
  · split <;> rfl
  · rfl

lemma homeSel_setStateCalled (inp : HandlerInput) :
    (homeSel inp).setStateCalled =
      (!(pyStrTruthy (readState inp.redis_url inp.get_state).1.1 &&
          pyStrTruthy (readState inp.redis_url inp.get_state).1.2) &&
        pyStrTruthy inp.genai_api_url &&
        hasGenaiOption (buildOptions inp.registry) &&
        pyStrTruthy inp.redis_url) := by
  cases ha : (pyStrTruthy (readState inp.redis_url inp.get_state).1.1 &&
      pyStrTruthy (readState inp.redis_url inp.get_state).1.2)
  · cases hg : pyStrTruthy inp.genai_api_url
    · simp [homeSel, selectInitial, ha, hg]
    · cases hgo : hasGenaiOption (buildOptions inp.registry)
      · simp [homeSel, selectInitial, ha, hg, hgo]
      · cases hr : pyStrTruthy inp.redis_url
        · simp [homeSel, selectInitial, ha, hg, hgo, hr]
        · have hie := filter_genai_isEmpty_false (buildOptions inp.registry) hgo
          simp only [homeSel, selectInitial, ha, hg, hgo, hr, hie, Bool.false_and,
            Bool.and_true, Bool.and_false, Bool.true_and, Bool.not_false, if_false, if_true,
            Bool.not_true, cond_true, cond_false]
          cases inp.set_state <;> simp
  · simp [homeSel, selectInitial, ha]

lemma homeSel_initial_cases (inp : HandlerInput) :
    (homeSel inp).initial_option = [] ∨
    ∃ f, (homeSel inp).initial_option = (buildOptions inp.registry).filter f := by
  unfold homeSel selectInitial
  dsimp only
  split
  · exact Or.inr ⟨_, rfl⟩
  · split
    · split
      · split <;> exact Or.inr ⟨_, rfl⟩
      · exact Or.inr ⟨_, rfl⟩
    · exact Or.inl rfl

lemma selectInitial_initial_set (u : String) (g r : Option String) (s s' : Except Unit Unit)
    (opts : List SelectOption) (p m : Option String) :
    (selectInitial u g r s opts p m).initial_option =
      (selectInitial u g r s' opts p m).initial_option := by
  unfold selectInitial
  dsimp only
  split
  · rfl
  · split
    · split
      · split <;> split <;> rfl
      · rfl
    · rfl

lemma selectInitial_error_log (u : String) (g r : Option String) (opts : List SelectOption)
    (p m : Option String)
    (h : (selectInitial u g r (Except.error ()) opts p m).setStateCalled = true) :
    "❌ Error saving default GenAI selection" ∈
      (selectInitial u g r (Except.error ()) opts p m).log := by
  unfold selectInitial at h ⊢
  dsimp only at h ⊢
  revert h
  split
  · intro h; simp at h
  · split
    · split
      · intro _; simp
      · intro h; simp at h
    · intro h; simp at h

lemma homeView_eq_of_initial (inp inp' : HandlerInput)
    (hg : inp.genai_api_url = inp'.genai_api_url)
    (hreg : inp.registry = inp'.registry)
    (hinit : (homeSel inp).initial_option = (homeSel inp').initial_option) :
    homeView inp = homeView inp' := by
  unfold homeView
  rw [hg, hreg, hinit]

lemma homeView_set_state (inp : HandlerInput) (s : Except Unit Unit) :
    homeView { inp with set_state := s } = homeView inp :=
  homeView_eq_of_initial _ _ rfl rfl
    (selectInitial_initial_set inp.user_id inp.genai_api_url inp.redis_url s inp.set_state
      (buildOptions inp.registry)
      (readState inp.redis_url inp.get_state).1.1
      (readState inp.redis_url inp.get_state).1.2)

lemma homeView_set_pub (inp : HandlerInput) (s pb : Except Unit Unit) :
    homeView { inp with set_state := s, publish := pb } = homeView inp := by
  have h1 : homeView { inp with set_state := s, publish := pb } =
      homeView { inp with set_state := s } := rfl
  rw [h1, homeView_set_state]

/-! ### Concrete example inputs used by witnesses and counterexamples -/

/-- A sample provider registry: the genai-agent entry plus one other model,
as `get_available_providers` would return when both are configured. -/
def exRegistry : List (String × ModelInfo) :=
  [("genai-agent", { name := "GenAI Agent", provider := "DigitalOcean" }),
   ("gpt-4o", { name := "GPT-4o", provider := "OpenAI" })]

/-! ### Claim theorems -/

/-- Claim C3: the dropdown option list is built fresh from the provider
registry: it has one option per `(model_name, model_info)` entry, in
registry iteration order, and the option at each position has display
label `"<name> (<provider>)"` and value
`"<model_name> <provider lower-cased>"`. -/
theorem C3_options_from_registry (registry : List (String × ModelInfo)) (i : Nat)
    (mn : String) (mi : ModelInfo) (h : registry[i]? = some (mn, mi)) :
    (buildOptions registry).length = registry.length ∧
    (buildOptions registry)[i]? = some
      { text := { type := "plain_text", text := mi.name ++ " (" ++ mi.provider ++ ")",
                  emoji := true },
        value := mn ++ " " ++ pyLower mi.provider } := by
  refine ⟨by simp [buildOptions], ?_⟩
  rw [buildOptions, List.getElem?_map, h]
  rfl

/-- Witness for C3 on a concrete registry entry. -/
theorem C3_options_from_registry_witness :
    exRegistry[0]? = some ("genai-agent", { name := "GenAI Agent", provider := "DigitalOcean" }) ∧
    ((buildOptions exRegistry).length = exRegistry.length ∧
      (buildOptions exRegistry)[0]? = some
        { text := { type := "plain_text", text := "GenAI Agent (DigitalOcean)", emoji := true },
          value := "genai-agent digitalocean" }) :=
  ⟨rfl, C3_options_from_registry exRegistry 0 "genai-agent"
    { name := "GenAI Agent", provider := "DigitalOcean" } rfl⟩

/-- Claim C9: when `REDIS_URL` is unset or empty (falsy), the state store is
never touched: neither `get_redis_user_state` nor `set_redis_user_state`
is called. -/
theorem C9_no_redis_no_state_calls (inp : HandlerInput)
    (h : pyStrTruthy inp.redis_url = false) :
    (app_home_opened_callback inp).getStateCalled = false ∧
    (app_home_opened_callback inp).setStateCalled = false := by
  by_cases htab : inp.tab = "home"
  · constructor
    · rw [callback_home_getStateCalled inp htab, readState_no_redis _ _ h]
    · rw [callback_home_setStateCalled inp htab, homeSel_setStateCalled]
      simp [h]
  · rw [callback_not_home inp htab]
    exact ⟨rfl, rfl⟩

/-- Concrete input for the C9 witness: `REDIS_URL` unset, everything else
in place to reach the publish step. -/
def exC9 : HandlerInput :=
  { tab := "home", user_id := "U9", registry := exRegistry,
    redis_url := none, genai_api_url := some "http://genai",
    get_state := Except.ok (none, none), set_state := Except.ok (),
    publish := Except.ok () }

/-- Witness for C9 on a concrete input. -/
theorem C9_no_redis_no_state_calls_witness :
    pyStrTruthy exC9.redis_url = false ∧
    ((app_home_opened_callback exC9).getStateCalled = false ∧
      (app_home_opened_callback exC9).setStateCalled = false) :=
  ⟨rfl, C9_no_redis_no_state_calls exC9 rfl⟩

/-- Claim C10: for an event whose `tab` is not `"home"`, the callback
returns immediately with no observable effect: registry not read, state
store neither read nor written, no view published, nothing logged. -/
theorem C10_non_home_noop (inp : HandlerInput) (h : inp.tab ≠ "home") :
    app_home_opened_callback inp =
      { registryRead := false, getStateCalled := false, setStateCalled := false,
        setStateOk := true, publishCalled := none, publishOk := false, log := [] } :=
  callback_not_home inp h

/-- Concrete input for the C10 witness: a `messages`-tab event. -/
def exC10 : HandlerInput :=
  { tab := "messages", user_id := "U10", registry := exRegistry,
    redis_url := some "redis://localhost", genai_api_url := some "http://genai",
    get_state := Except.ok (some "openai", some "gpt-4o"), set_state := Except.ok (),
    publish := Except.ok () }

/-- Witness for C10 on a concrete input. -/
theorem C10_non_home_noop_witness :
    exC10.tab ≠ "home" ∧
    app_home_opened_callback exC10 =
      { registryRead := false, getStateCalled := false, setStateCalled := false,
        setStateOk := true, publishCalled := none, publishOk := false, log := [] } :=
  ⟨by decide, C10_non_home_noop exC10 (by decide)⟩

/-- Claim C1: when the store returns a saved provider and model (both
truthy) and some option's value starts with the saved model string, the
published dropdown's `initial_option` is the first option whose value
starts with the saved model, and the options list is unchanged. -/
theorem C1_saved_model_selected (inp : HandlerInput) (p m : String)
    (htab : inp.tab = "home")
    (hr : pyStrTruthy inp.redis_url = true)
    (hget : inp.get_state = Except.ok (some p, some m))
    (hp : p ≠ "") (hm : m ≠ "")
    (hmatch : (buildOptions inp.registry).filter (fun x => pyStartsWith x.value m) ≠ []) :
    ∃ v, (app_home_opened_callback inp).publishCalled = some v ∧
      v.initial_option =
        ((buildOptions inp.registry).filter fun x => pyStartsWith x.value m).head? ∧
      v.options = buildOptions inp.registry := by
  have hsel := homeSel_saved inp p m hr hget hp hm
  obtain ⟨y, t, hyt⟩ := List.exists_cons_of_ne_nil hmatch
  refine ⟨homeView inp, callback_home_publishCalled inp htab, ?_, ?_⟩
  · unfold homeView
    rw [hsel]
    dsimp only
    rw [hyt]
    rfl
  · unfold homeView
    rw [hsel]
    dsimp only
    rw [hyt]
    simp [finalOptions]

/-- Concrete input for the C1 witness: saved pair `("openai", "gpt-4o")`
matching the registry's gpt-4o entry. -/
def exC1 : HandlerInput :=
  { tab := "home", user_id := "U1", registry := exRegistry,
    redis_url := some "redis://localhost", genai_api_url := none,
    get_state := Except.ok (some "openai", some "gpt-4o"),
    set_state := Except.ok (), publish := Except.ok () }

/-- Witness for C1 on a concrete input. -/
theorem C1_saved_model_selected_witness :
    (exC1.tab = "home" ∧ pyStrTruthy exC1.redis_url = true ∧
      exC1.get_state = Except.ok (some "openai", some "gpt-4o") ∧
      ("openai" : String) ≠ "" ∧ ("gpt-4o" : String) ≠ "" ∧
      (buildOptions exC1.registry).filter (fun x => pyStartsWith x.value "gpt-4o") ≠ []) ∧
    (∃ v, (app_home_opened_callback exC1).publishCalled = some v ∧
      v.initial_option =
        ((buildOptions exC1.registry).filter fun x => pyStartsWith x.value "gpt-4o").head? ∧
      v.options = buildOptions exC1.registry) :=
  ⟨⟨rfl, rfl, rfl, by decide, by decide, by decide⟩,
   C1_saved_model_selected exC1 "openai" "gpt-4o" rfl rfl rfl
     (by decide) (by decide) (by decide)⟩

/-- Claim C2: when no truthy saved provider/model pair is available (store
returned nothing, or was not consulted, or failed), `GENAI_API_URL` is
truthy and some option's value starts with `"genai-agent"`, the published
dropdown's `initial_option` is the first genai-agent option. -/
theorem C2_genai_default_selected (inp : HandlerInput)
    (htab : inp.tab = "home")
    (hns : (pyStrTruthy (readState inp.redis_url inp.get_state).1.1 &&
      pyStrTruthy (readState inp.redis_url inp.get_state).1.2) = false)
    (hg : pyStrTruthy inp.genai_api_url = true)
    (hgo : hasGenaiOption (buildOptions inp.registry) = true) :
    ∃ v, (app_home_opened_callback inp).publishCalled = some v ∧
      v.initial_option =
        ((buildOptions inp.registry).filter fun x => pyStartsWith x.value "genai-agent").head? ∧
      v.options = buildOptions inp.registry := by
  have hsel := homeSel_nosaved_genai inp hns hg hgo
  have hne := filter_genai_ne_nil (buildOptions inp.registry) hgo
  obtain ⟨y, t, hyt⟩ := List.exists_cons_of_ne_nil hne
  refine ⟨homeView inp, callback_home_publishCalled inp htab, ?_, ?_⟩
  · unfold homeView
    rw [hsel]
    dsimp only
    rw [hyt]
    rfl
  · unfold homeView
    rw [hsel]
    dsimp only
    rw [hyt]
    simp [finalOptions]

/-- Concrete input for the C2 witness: `REDIS_URL` unset (store not
consulted), `GENAI_API_URL` set, genai-agent entry in the registry. -/
def exC2 : HandlerInput :=
  { tab := "home", user_id := "U2", registry := exRegistry, redis_url := none,
    genai_api_url := some "http://genai", get_state := Except.ok (none, none),
    set_state := Except.ok (), publish := Except.ok () }

/-- Witness for C2 on a concrete input. -/
theorem C2_genai_default_selected_witness :
    (exC2.tab = "home" ∧
      (pyStrTruthy (readState exC2.redis_url exC2.get_state).1.1 &&
        pyStrTruthy (readState exC2.redis_url exC2.get_state).1.2) = false ∧
      pyStrTruthy exC2.genai_api_url = true ∧
      hasGenaiOption (buildOptions exC2.registry) = true) ∧
    (∃ v, (app_home_opened_callback exC2).publishCalled = some v ∧
      v.initial_option =
        ((buildOptions exC2.registry).filter fun x => pyStartsWith x.value "genai-agent").head? ∧
      v.options = buildOptions exC2.registry) :=
  ⟨⟨rfl, by decide, rfl, by decide⟩,
   C2_genai_default_selected exC2 rfl (by decide) rfl (by decide)⟩

/-- Claim C4: when `get_redis_user_state` raises, the failure is logged and
the handler behaves exactly as if the user had no saved preference: every
observable outcome (published view, store write, publish result) equals
that of the same invocation whose store read returns `(None, None)`, and
no exception propagates (the callback still yields a normal result). -/
theorem C4_get_state_failure_fallback (inp : HandlerInput)
    (htab : inp.tab = "home")
    (hr : pyStrTruthy inp.redis_url = true)
    (herr : inp.get_state = Except.error ()) :
    (app_home_opened_callback inp).getStateCalled = true ∧
    "⚠️ Failed to get user state from Redis" ∈ (app_home_opened_callback inp).log ∧
    (app_home_opened_callback inp).publishCalled =
      (app_home_opened_callback { inp with get_state := Except.ok (none, none) }).publishCalled ∧
    (app_home_opened_callback inp).setStateCalled =
      (app_home_opened_callback { inp with get_state := Except.ok (none, none) }).setStateCalled ∧
    (app_home_opened_callback inp).setStateOk =
      (app_home_opened_callback { inp with get_state := Except.ok (none, none) }).setStateOk ∧
    (app_home_opened_callback inp).publishOk =
      (app_home_opened_callback { inp with get_state := Except.ok (none, none) }).publishOk := by
  have e1 : readState inp.redis_url inp.get_state =
      ((none, none), true, ["⚠️ Failed to get user state from Redis"]) := by
    rw [herr]; exact readState_err _ hr
  have htab' : ({ inp with get_state := Except.ok (none, none) } : HandlerInput).tab = "home" := htab
  have hsel : homeSel { inp with get_state := Except.ok (none, none) } = homeSel inp := by
    have h2 := readState_ok inp.redis_url ((none : Option String), (none : Option String)) hr
    show selectInitial inp.user_id inp.genai_api_url inp.redis_url inp.set_state
        (buildOptions inp.registry)
        (readState inp.redis_url (Except.ok (none, none))).1.1
        (readState inp.redis_url (Except.ok (none, none))).1.2 = homeSel inp
    unfold homeSel
    rw [h2, e1]
  have hview : homeView { inp with get_state := Except.ok (none, none) } = homeView inp :=
    homeView_eq_of_initial _ _ rfl rfl (by rw [hsel])
  refine ⟨?_, ?_, ?_, ?_, ?_, ?_⟩
  · rw [callback_home_getStateCalled inp htab, e1]
  · rw [callback_home_log inp htab, e1]
    simp
  · rw [callback_home_publishCalled inp htab, callback_home_publishCalled _ htab', hview]
  · rw [callback_home_setStateCalled inp htab, callback_home_setStateCalled _ htab', hsel]
  · rw [callback_home_setStateOk inp htab, callback_home_setStateOk _ htab', hsel]
  · rw [callback_home_publishOk inp htab, callback_home_publishOk _ htab']

/-- Concrete input for the C4 witness: Redis configured, store read
raises. -/
def exC4 : HandlerInput :=
  { tab := "home", user_id := "U4", registry := exRegistry,
    redis_url := some "redis://localhost", genai_api_url := some "http://genai",
    get_state := Except.error (), set_state := Except.ok (), publish := Except.ok () }

/-- Witness for C4 on a concrete input. -/
theorem C4_get_state_failure_fallback_witness :
    (exC4.tab = "home" ∧ pyStrTruthy exC4.redis_url = true ∧
      exC4.get_state = Except.error ()) ∧
    ((app_home_opened_callback exC4).getStateCalled = true ∧
      "⚠️ Failed to get user state from Redis" ∈ (app_home_opened_callback exC4).log ∧
      (app_home_opened_callback exC4).publishCalled =
        (app_home_opened_callback { exC4 with get_state := Except.ok (none, none) }).publishCalled ∧
      (app_home_opened_callback exC4).setStateCalled =
        (app_home_opened_callback { exC4 with get_state := Except.ok (none, none) }).setStateCalled ∧
      (app_home_opened_callback exC4).setStateOk =
        (app_home_opened_callback { exC4 with get_state := Except.ok (none, none) }).setStateOk ∧
      (app_home_opened_callback exC4).publishOk =
        (app_home_opened_callback { exC4 with get_state := Except.ok (none, none) }).publishOk) :=
  ⟨⟨rfl, rfl, rfl⟩, C4_get_state_failure_fallback exC4 rfl rfl rfl⟩

/-- Claim C5: failures of `set_redis_user_state` or `client.views_publish`
are caught and logged and never propagate: the view payload handed to
`views_publish` is unaffected by either failure, a write failure does not
prevent the publish call from being attempted, and when the write (resp.
publish) fails the corresponding error message is logged. -/
theorem C5_write_publish_failures_contained (inp : HandlerInput) (htab : inp.tab = "home") :
    (app_home_opened_callback
        { inp with set_state := Except.error (), publish := Except.error () }).publishCalled =
      (app_home_opened_callback
        { inp with set_state := Except.ok (), publish := Except.ok () }).publishCalled ∧
    ((app_home_opened_callback { inp with set_state := Except.error () }).publishCalled).isSome
      = true ∧
    (app_home_opened_callback { inp with publish := Except.error () }).publishOk = false ∧
    ((app_home_opened_callback { inp with set_state := Except.error () }).setStateCalled = true →
      "❌ Error saving default GenAI selection" ∈
        (app_home_opened_callback { inp with set_state := Except.error () }).log) ∧
    "❌ Error publishing home view" ∈
      (app_home_opened_callback { inp with publish := Except.error () }).log := by
  have htabA : ({ inp with set_state := Except.error (), publish := Except.error () } :
    HandlerInput).tab = "home" := htab
  have htabB : ({ inp with set_state := Except.ok (), publish := Except.ok () } :
    HandlerInput).tab = "home" := htab
  have htabC : ({ inp with set_state := Except.error () } : HandlerInput).tab = "home" := htab
  have htabD : ({ inp with publish := Except.error () } : HandlerInput).tab = "home" := htab
  refine ⟨?_, ?_, ?_, ?_, ?_⟩
  · have hA := homeView_set_pub inp (Except.error ()) (Except.error ())
    have hB := homeView_set_pub inp (Except.ok ()) (Except.ok ())
    rw [callback_home_publishCalled _ htabA, callback_home_publishCalled _ htabB, hA, hB]
  · rw [callback_home_publishCalled _ htabC]
    rfl
  · rw [callback_home_publishOk _ htabD]
    rfl
  · intro h
    rw [callback_home_setStateCalled _ htabC] at h
    rw [callback_home_log _ htabC]
    have hmem := selectInitial_error_log inp.user_id inp.genai_api_url inp.redis_url
      (buildOptions inp.registry)
      (readState inp.redis_url inp.get_state).1.1
      (readState inp.redis_url inp.get_state).1.2 h
    simp only [List.mem_append]
    exact Or.inl (Or.inr hmem)
  · rw [callback_home_log _ htabD]
    simp

/-- Concrete input for the C5 witness: a home-tab invocation that reaches
the write (no saved preference, genai default available, Redis set). -/
def exC5 : HandlerInput :=
  { tab := "home", user_id := "U5", registry := exRegistry,
    redis_url := some "redis://localhost", genai_api_url := some "http://genai",
    get_state := Except.ok (none, none), set_state := Except.ok (), publish := Except.ok () }

/-- Witness for C5 on a concrete input. -/
theorem C5_write_publish_failures_contained_witness :
    exC5.tab = "home" ∧
    ((app_home_opened_callback
        { exC5 with set_state := Except.error (), publish := Except.error () }).publishCalled =
      (app_home_opened_callback
        { exC5 with set_state := Except.ok (), publish := Except.ok () }).publishCalled ∧
    ((app_home_opened_callback { exC5 with set_state := Except.error () }).publishCalled).isSome
      = true ∧
    (app_home_opened_callback { exC5 with publish := Except.error () }).publishOk = false ∧
    ((app_home_opened_callback { exC5 with set_state := Except.error () }).setStateCalled = true →
      "❌ Error saving default GenAI selection" ∈
        (app_home_opened_callback { exC5 with set_state := Except.error () }).log) ∧
    "❌ Error publishing home view" ∈
      (app_home_opened_callback { exC5 with publish := Except.error () }).log) :=
  ⟨rfl, C5_write_publish_failures_contained exC5 rfl⟩

/-- Concrete input refuting claim C6: Redis configured, store holds no
preference, genai default available — the handler then writes the default
selection to the store. -/
def exC6 : HandlerInput :=
  { tab := "home", user_id := "U6", registry := exRegistry,
    redis_url := some "redis://localhost", genai_api_url := some "http://genai",
    get_state := Except.ok (none, none), set_state := Except.ok (), publish := Except.ok () }

/-- Claim C6 is false as stated: on `exC6` the callback does call
`set_redis_user_state` (it persists the default genai selection). -/
theorem C6_counterexample : (app_home_opened_callback exC6).setStateCalled = true := by
  decide

/-- Claim C6 (amended): the callback writes to the user-state store exactly
when the event is for the home tab, `REDIS_URL` is truthy, no truthy
saved provider/model pair was obtained from the store read, `GENAI_API_URL`
is truthy, and a genai-agent option exists (the best-effort save of the
default genai selection); in every other case no store write occurs. -/
theorem C6_write_only_genai_default (inp : HandlerInput) :
    (app_home_opened_callback inp).setStateCalled = true ↔
      (inp.tab = "home" ∧ pyStrTruthy inp.redis_url = true ∧
        (pyStrTruthy (readState inp.redis_url inp.get_state).1.1 &&
          pyStrTruthy (readState inp.redis_url inp.get_state).1.2) = false ∧
        pyStrTruthy inp.genai_api_url = true ∧
        hasGenaiOption (buildOptions inp.registry) = true) := by
  by_cases htab : inp.tab = "home"
  · rw [callback_home_setStateCalled inp htab, homeSel_setStateCalled]
    constructor
    · intro h
      rw [Bool.and_eq_true, Bool.and_eq_true, Bool.and_eq_true] at h
      obtain ⟨⟨⟨hna, hg⟩, ho⟩, hr⟩ := h
      refine ⟨htab, hr, ?_, hg, ho⟩
      cases hval : (pyStrTruthy (readState inp.redis_url inp.get_state).1.1 &&
          pyStrTruthy (readState inp.redis_url inp.get_state).1.2)
      · rfl
      · rw [hval] at hna
        exact absurd hna (by decide)
    · rintro ⟨-, hr, hns, hg, ho⟩
      rw [hns, hg, ho, hr]
      rfl
  · rw [callback_not_home inp htab]
    constructor
    · intro h
      simp at h
    · rintro ⟨ht, -⟩
      exact absurd ht htab

/-- Concrete input refuting claim C7: a saved model (`"stale-model"`)
matching no option, with the genai fallback available. -/
def exC7 : HandlerInput :=
  { tab := "home", user_id := "U7", registry := exRegistry,
    redis_url := some "redis://localhost", genai_api_url := some "http://genai",
    get_state := Except.ok (some "openai", some "stale-model"),
    set_state := Except.ok (), publish := Except.ok () }

/-- Claim C7 is false as stated: on `exC7` the published initial option is
the `"null"`-valued placeholder, not a genai-agent option (its value does
not start with `"genai-agent"`). -/
theorem C7_counterexample :
    ((app_home_opened_callback exC7).publishCalled.bind PublishedView.initial_option) =
      some genaiFallbackOption ∧
    pyStartsWith genaiFallbackOption.value "genai-agent" = false := by
  constructor
  · decide
  · decide

/-- Claim C7 (amended): when the store returns a truthy saved pair whose
model matches no option, and `GENAI_API_URL` is set with a genai-agent
option present, the handler does not select the genai-agent option;
instead it appends the `"null"`-valued `"Select a provider (GenAI used as
fallback)"` placeholder and publishes it as the initial option, and makes
no store write. -/
theorem C7_stale_model_placeholder (inp : HandlerInput) (p m : String)
    (htab : inp.tab = "home")
    (hr : pyStrTruthy inp.redis_url = true)
    (hget : inp.get_state = Except.ok (some p, some m))
    (hp : p ≠ "") (hm : m ≠ "")
    (hnomatch : (buildOptions inp.registry).filter (fun x => pyStartsWith x.value m) = [])
    (hg : pyStrTruthy inp.genai_api_url = true)
    (hgo : hasGenaiOption (buildOptions inp.registry) = true) :
    ∃ v, (app_home_opened_callback inp).publishCalled = some v ∧
      v.initial_option = some genaiFallbackOption ∧
      v.options = buildOptions inp.registry ++ [genaiFallbackOption] ∧
      (app_home_opened_callback inp).setStateCalled = false := by
  have hsel := homeSel_saved inp p m hr hget hp hm
  refine ⟨homeView inp, callback_home_publishCalled inp htab, ?_, ?_, ?_⟩
  · unfold homeView
    rw [hsel]
    dsimp only
    rw [hnomatch]
    unfold finalOptions viewInitial
    simp [hg, hgo, List.getLast?_concat]
  · unfold homeView
    rw [hsel]
    dsimp only
    rw [hnomatch]
    unfold finalOptions
    simp [hg, hgo]
  · rw [callback_home_setStateCalled inp htab, hsel]

/-- Witness for the amended C7 on a concrete input. -/
theorem C7_stale_model_placeholder_witness :
    (exC7.tab = "home" ∧ pyStrTruthy exC7.redis_url = true ∧
      exC7.get_state = Except.ok (some "openai", some "stale-model") ∧
      ("openai" : String) ≠ "" ∧ ("stale-model" : String) ≠ "" ∧
      (buildOptions exC7.registry).filter (fun x => pyStartsWith x.value "stale-model") = [] ∧
      pyStrTruthy exC7.genai_api_url = true ∧
      hasGenaiOption (buildOptions exC7.registry) = true) ∧
    (∃ v, (app_home_opened_callback exC7).publishCalled = some v ∧
      v.initial_option = some genaiFallbackOption ∧
      v.options = buildOptions exC7.registry ++ [genaiFallbackOption] ∧
      (app_home_opened_callback exC7).setStateCalled = false) :=
  ⟨⟨rfl, rfl, rfl, by decide, by decide, by decide, rfl, by decide⟩,
   C7_stale_model_placeholder exC7 "openai" "stale-model" rfl rfl rfl
     (by decide) (by decide) (by decide) rfl (by decide)⟩

/-- Claim C8: whenever the publish step is reached, the options list is
non-empty and the published `initial_option` is an element of it: the
first matched/fallback option when one was chosen, otherwise the
`"null"`-valued placeholder appended as last element (and the placeholder
is appended exactly when no initial option was chosen). -/
theorem C8_initial_in_options (inp : HandlerInput) (htab : inp.tab = "home") :
    ∃ v x, (app_home_opened_callback inp).publishCalled = some v ∧
      v.initial_option = some x ∧ x ∈ v.options ∧ v.options ≠ [] ∧
      ((homeSel inp).initial_option = [] →
        x.value = "null" ∧ v.options = buildOptions inp.registry ++ [x]) ∧
      ((homeSel inp).initial_option ≠ [] →
        v.options = buildOptions inp.registry ∧
        (homeSel inp).initial_option.head? = some x) := by
  cases hio : (homeSel inp).initial_option with
  | nil =>
    by_cases hgb : (pyStrTruthy inp.genai_api_url &&
      hasGenaiOption (buildOptions inp.registry)) = true
    · refine ⟨homeView inp, genaiFallbackOption,
        callback_home_publishCalled inp htab, ?_, ?_, ?_, ?_, ?_⟩
      · unfold homeView; rw [hio]; unfold finalOptions viewInitial
        simp [hgb, List.getLast?_concat]
      · unfold homeView; rw [hio]; unfold finalOptions; simp [hgb]
      · unfold homeView; rw [hio]; unfold finalOptions; simp [hgb]
      · intro _
        refine ⟨rfl, ?_⟩
        unfold homeView; rw [hio]; unfold finalOptions; simp [hgb]
      · intro hne; exact absurd rfl hne
    · refine ⟨homeView inp, plainFallbackOption,
        callback_home_publishCalled inp htab, ?_, ?_, ?_, ?_, ?_⟩
      · unfold homeView; rw [hio]; unfold finalOptions viewInitial
        simp [hgb, List.getLast?_concat]
      · unfold homeView; rw [hio]; unfold finalOptions; simp [hgb]
      · unfold homeView; rw [hio]; unfold finalOptions; simp [hgb]
      · intro _
        refine ⟨rfl, ?_⟩
        unfold homeView; rw [hio]; unfold finalOptions; simp [hgb]
      · intro hne; exact absurd rfl hne
  | cons y t =>
    have hmem : y ∈ buildOptions inp.registry := by
      rcases homeSel_initial_cases inp with hnil | ⟨f, hf⟩
      · rw [hio] at hnil; exact absurd hnil (List.cons_ne_nil y t)
      · rw [hio] at hf
        have hy : y ∈ List.filter f (buildOptions inp.registry) := by
          rw [← hf]; exact List.mem_cons_self y t
        exact List.mem_of_mem_filter hy
    refine ⟨homeView inp, y, callback_home_publishCalled inp htab, ?_, ?_, ?_, ?_, ?_⟩
    · unfold homeView; rw [hio]; rfl
    · unfold homeView; rw [hio]; unfold finalOptions; simp; exact hmem
    · unfold homeView; rw [hio]; unfold finalOptions; simp
      exact List.ne_nil_of_mem hmem
    · intro h; exact absurd h (List.cons_ne_nil y t)
    · intro _
      refine ⟨?_, ?_⟩
      · unfold homeView; rw [hio]; unfold finalOptions; simp
      · rfl

/-- Concrete input for the C8 witness: empty registry, no genai, so the
plain placeholder is appended and published as the initial option. -/
def exC8 : HandlerInput :=
  { tab := "home", user_id := "U8", registry := [], redis_url := none,
    genai_api_url := none, get_state := Except.ok (none, none),
    set_state := Except.ok (), publish := Except.ok () }

/-- Witness for C8 on a concrete input. -/
theorem C8_initial_in_options_witness :
    exC8.tab = "home" ∧
    (∃ v x, (app_home_opened_callback exC8).publishCalled = some v ∧
      v.initial_option = some x ∧ x ∈ v.options ∧ v.options ≠ [] ∧
      ((homeSel exC8).initial_option = [] →
        x.value = "null" ∧ v.options = buildOptions exC8.registry ++ [x]) ∧
      ((homeSel exC8).initial_option ≠ [] →
        v.options = buildOptions exC8.registry ∧
        (homeSel exC8).initial_option.head? = some x)) :=
  ⟨rfl, C8_initial_in_options exC8 rfl⟩

end AppHome
